import Mathlib

set_option maxRecDepth 100000

/-!
Shallow embedding of the agentLipaChat service (FastAPI + CrewAI + Anthropic
wrapper) used to check the natural-language specification against the code.

The embedding covers:
  * the tenacity retry wrappers of `app/utils/anthropic_helpers.generate_response`
    and `app/agents/base.BaseAgent.process_query`;
  * the pure prompt/context construction of `BaseAgent._prepare_context`,
    `BaseAgent.process_query` and
    `app/utils/anthropic_helpers.create_customer_support_prompt`;
  * the three workflow builders of `app/orchestration/crew.LipaChatCrew`;
  * `app/tools/knowledge_base.KnowledgeBaseTool._run` with its static data;
  * `app/tools/content_generator.ContentGeneratorTool._get_length_params`.

Remote calls (Anthropic API, CrewAI kickoff of a single task) are abstracted as
explicit function parameters; everything else is translated directly from the
Python source.
-/

namespace LipaChat

/-- Python truthiness of an optional list-like value (list or dict argument
with `None` default): `None` and the empty collection are falsy. -/
def pyTruthy : Option (List α) → Bool
  | none => false
  | some xs => !xs.isEmpty

/-- Python slice `xs[-n:]`: the last `n` elements; `n = 0` degenerates to
`xs[0:]`, the whole list. -/
def pyLastSlice (n : Nat) (xs : List α) : List α :=
  if n = 0 then xs else xs.drop (xs.length - n)

/-- Python `str.lower` for the ASCII strings appearing in this repository. -/
def strLower (s : String) : String := ⟨s.data.map Char.toLower⟩

/-- Python `needle in haystack` on strings: substring containment. -/
def pyInStr (needle haystack : String) : Bool :=
  decide (needle.data <:+: haystack.data)

/-! ## Retry model (tenacity)

Both retry-decorated functions use
`stop=stop_after_attempt(3), wait=wait_exponential(multiplier=1, min=2, max=10)`.
`generate_response` additionally passes
`retry=lambda e: isinstance(e, (AnthropicError, ConnectionError, TimeoutError))`
and `reraise=True`; `process_query` passes neither, so tenacity uses its
defaults: retry on every raised exception, and wrap the last failure in a
`RetryError` on exhaustion. -/

/-- Exception classes observable by the retry wrappers. `otherError` stands
for any exception outside the three classes named by the source lambda
(e.g. `ValueError`, `AttributeError`). -/
inductive ExcClass
  | anthropicError
  | connectionError
  | timeoutError
  | otherError (msg : String)
deriving DecidableEq, Repr

/-- Transient classification per the spec glossary: network, timeout, or
provider-side failure. -/
def ExcClass.isTransient : ExcClass → Bool
  | .anthropicError | .connectionError | .timeoutError => true
  | .otherError _ => false

/-- Runtime values that can reach the `isinstance` test of the source's retry
lambda: either a raised exception object, or tenacity's `RetryCallState`
(the argument tenacity actually passes to a user-supplied retry callable). -/
inductive PyObj
  | exc (c : ExcClass)
  | retryCallState (lastExc : ExcClass)

/-- Python `isinstance(x, (AnthropicError, ConnectionError, TimeoutError))`:
true exactly on exception objects of the three transient classes; a
`RetryCallState` object is an instance of none of them. -/
def isinstance_transient : PyObj → Bool
  | .exc c => c.isTransient
  | .retryCallState _ => false

/-- Retry condition of `generate_response`:
`retry=lambda e: isinstance(e, (AnthropicError, ConnectionError, TimeoutError))`.
Tenacity invokes the retry callable with the `RetryCallState`, not with the
raised exception, so the `isinstance` test is applied to the state object. -/
def generate_response_retry_cond (lastExc : ExcClass) : Bool :=
  isinstance_transient (.retryCallState lastExc)

/-- Python `isinstance(x, Exception)`: true on every exception object. -/
def isinstance_exception : PyObj → Bool
  | .exc _ => true
  | .retryCallState _ => false

/-- Retry condition of `process_query`: the decorator passes no `retry`
argument, so tenacity defaults to `retry_if_exception_type(Exception)`,
which tests the raised exception itself with `isinstance(e, Exception)`. -/
def process_query_retry_cond (lastExc : ExcClass) : Bool :=
  isinstance_exception (.exc lastExc)

/-- tenacity `wait_exponential(multiplier, min=lo, max=hi)` evaluated after
failed attempt number `n` (1-based): `multiplier * 2 ^ n` clamped into
`[max 0 lo, hi]`. -/
def wait_exponential (multiplier lo hi n : Nat) : Nat :=
  Nat.max (Nat.max 0 lo) (Nat.min (multiplier * 2 ^ n) hi)

/-- Result of a retry-wrapped call as seen by the caller. -/
inductive RetryOutcome (α : Type)
  | ok (v : α)
  | raised (e : ExcClass)
  | retryError (last : ExcClass)
deriving DecidableEq, Repr

/-- Trace of one retry-wrapped invocation: final outcome, number of attempts
actually made, and the sleeps performed between consecutive attempts. -/
structure RetryTrace (α : Type) where
  outcome : RetryOutcome α
  attemptsMade : Nat
  sleeps : List Nat
deriving DecidableEq, Repr

/-- Configuration of one `@retry(...)` decorator. -/
structure RetryPolicy where
  stopAfter : Nat
  wait : Nat → Nat
  retryCond : ExcClass → Bool
  reraise : Bool

/-- Core of tenacity `BaseRetrying.iter`, specialised to
`stop_after_attempt`. `attempts k` is the outcome of the k-th call of the
wrapped body (1-based). After a failed attempt the retry condition is
consulted first (false: the exception propagates unchanged); then the stop
condition (reached: reraise the last exception, or wrap it in `RetryError`);
otherwise sleep `wait n` and try again. `fuel` bounds the recursion and is
instantiated so that it never runs out. -/
def retryLoop (p : RetryPolicy) (attempts : Nat → Except ExcClass α) :
    Nat → Nat → RetryTrace α
  | _, 0 => { outcome := .retryError (.otherError "out of fuel"), attemptsMade := 0, sleeps := [] }
  | n, fuel + 1 =>
    match attempts n with
    | .ok v => { outcome := .ok v, attemptsMade := n, sleeps := [] }
    | .error e =>
      if !p.retryCond e then
        { outcome := .raised e, attemptsMade := n, sleeps := [] }
      else if p.stopAfter ≤ n then
        { outcome := if p.reraise then .raised e else .retryError e
          attemptsMade := n, sleeps := [] }
      else
        let rest := retryLoop p attempts (n + 1) fuel
        { outcome := rest.outcome, attemptsMade := rest.attemptsMade
          sleeps := p.wait n :: rest.sleeps }

/-- One retry-wrapped invocation, starting at attempt 1. -/
def retryCall (p : RetryPolicy) (attempts : Nat → Except ExcClass α) : RetryTrace α :=
  retryLoop p attempts 1 p.stopAfter

/-- Decorator configuration of `generate_response` (anthropic_helpers.py,
lines 24-29). -/
def generate_response_policy : RetryPolicy :=
  { stopAfter := 3
    wait := wait_exponential 1 2 10
    retryCond := generate_response_retry_cond
    reraise := true }

/-- Decorator configuration of `BaseAgent.process_query` (base.py,
lines 63-66): no `retry` argument, no `reraise`. -/
def process_query_policy : RetryPolicy :=
  { stopAfter := 3
    wait := wait_exponential 1 2 10
    retryCond := process_query_retry_cond
    reraise := false }

/-- `generate_response` as its retry wrapper applied to the body; each
attempt is one `client.messages.create` call, abstracted as the stream
`attempts`. -/
def generate_response (attempts : Nat → Except ExcClass String) : RetryTrace String :=
  retryCall generate_response_policy attempts

/-- The retry wrapper of `BaseAgent.process_query` applied to its body,
abstracted as the stream `attempts`. -/
def process_query_wrapped (attempts : Nat → Except ExcClass α) : RetryTrace α :=
  retryCall process_query_policy attempts

/-! ## Settings and BaseAgent (app/config.py, app/agents/base.py) -/

/-- Modelled from the spec: the fields `SUPPORTED_LANGUAGES`,
`DEFAULT_LANGUAGE` and `MAX_CONVERSATION_HISTORY` are read by
`app/agents/base.py` but are not declared in `src/app/config.py`; the spec
describes them as a configured supported-language set with default `"en"`
and a history retention length defaulting to 10, both environment-set.
They are therefore carried as abstract configuration values here. -/
structure Settings where
  SUPPORTED_LANGUAGES : List String
  DEFAULT_LANGUAGE : String
  MAX_CONVERSATION_HISTORY : Nat
deriving DecidableEq

/-- The configuration with the spec-stated defaults (`"en"` supported and
default, retention length 10), used to evaluate theorems on concrete input. -/
def default_settings : Settings :=
  { SUPPORTED_LANGUAGES := ["en", "sw"]
    DEFAULT_LANGUAGE := "en"
    MAX_CONVERSATION_HISTORY := 10 }

/-- One entry of `conversation_history` as consumed by
`BaseAgent._prepare_context`: a dict that may carry a `"user"` and/or an
`"assistant"` key (any other key is ignored by the code). -/
structure Turn where
  user : Option String
  assistant : Option String
deriving DecidableEq

/-- Rendering of one history turn inside the loop of `_prepare_context`
(base.py, lines 123-127). -/
def renderTurn (t : Turn) : String :=
  (match t.user with
   | some u => "User: " ++ u ++ "\n"
   | none => "")
  ++ (match t.assistant with
      | some a => "Assistant: " ++ a ++ "\n"
      | none => "")

/-- The conversation-history block of `_prepare_context` (base.py,
lines 117-128): emitted only when the history is truthy, trimmed with
`conversation_history[-settings.MAX_CONVERSATION_HISTORY:]`. -/
def history_section (s : Settings) (conversation_history : Option (List Turn)) : String :=
  if pyTruthy conversation_history then
    "Conversation history:\n"
      ++ String.join ((pyLastSlice s.MAX_CONVERSATION_HISTORY
            (conversation_history.getD [])).map renderTurn)
      ++ "\n"
  else ""

/-- The metadata block of `_prepare_context` (base.py, lines 130-134):
emitted only when the metadata dict is truthy; dict insertion order is
modelled by the association-list order. -/
def metadata_section (metadata : Option (List (String × String))) : String :=
  if pyTruthy metadata then
    "Additional context:\n"
      ++ String.join ((metadata.getD []).map fun kv => kv.1 ++ ": " ++ kv.2 ++ "\n")
  else ""

/-- `BaseAgent._prepare_context` (base.py, lines 111-136). -/
def _prepare_context (s : Settings) (conversation_history : Option (List Turn))
    (metadata : Option (List (String × String))) : String :=
  history_section s conversation_history ++ metadata_section metadata

/-- The `Task` object built inside `process_query` (base.py, lines 88-92):
description and string context. The agent reference is kept abstract. -/
structure AgentTask where
  description : String
  context : String
deriving DecidableEq

/-- Construction of the task of `process_query` after the language check
(base.py, lines 83-92). -/
def process_query_task (s : Settings) (query language : String)
    (conversation_history : Option (List Turn))
    (metadata : Option (List (String × String))) : AgentTask :=
  let lang := if language ∈ s.SUPPORTED_LANGUAGES then language else s.DEFAULT_LANGUAGE
  { description := "Process the following query in " ++ lang ++ ": " ++ query
    context := _prepare_context s conversation_history metadata }

/-- The dict returned by `process_query` (base.py, lines 104-109), minus the
wall-clock timestamp of `_process_result_metadata`, which is outside this
embedding; the two length fields of that helper are kept. -/
structure ProcessQueryResult where
  response : String
  agent : String
  language : String
  query_length : Nat
  response_length : Nat
deriving DecidableEq

/-- Body of one attempt of `BaseAgent.process_query` (base.py, lines 83-109):
language fallback, task construction, single-task crew kickoff (abstracted
as `kickoff`), and result assembly. -/
def process_query_body (s : Settings) (agent_name : String)
    (kickoff : AgentTask → String) (query : String)
    (conversation_history : Option (List Turn)) (language : String)
    (metadata : Option (List (String × String))) : ProcessQueryResult :=
  let lang := if language ∈ s.SUPPORTED_LANGUAGES then language else s.DEFAULT_LANGUAGE
  let task := process_query_task s query language conversation_history metadata
  let result := kickoff task
  { response := result
    agent := agent_name
    language := lang
    query_length := query.length
    response_length := result.length }

/-! ## create_customer_support_prompt (app/utils/anthropic_helpers.py) -/

/-- One entry of the `conversation_history` argument of
`create_customer_support_prompt`: a dict read with
`message.get("role", "Unknown")` and `message.get("content", "")`. -/
structure Msg where
  role : Option String
  content : Option String
deriving DecidableEq

/-- Rendering of one history message (anthropic_helpers.py, lines 101-104). -/
def render_msg (m : Msg) : String :=
  m.role.getD "Unknown" ++ ": " ++ m.content.getD "" ++ "\n"

/-- The customer-information part (anthropic_helpers.py, lines 93-97):
present only when `customer_info` is truthy. -/
def customer_info_parts (customer_info : Option (List (String × String))) : List String :=
  if pyTruthy customer_info then
    ["Customer information:\n"
      ++ String.join ((customer_info.getD []).map fun kv => "- " ++ kv.1 ++ ": " ++ kv.2 ++ "\n")]
  else []

/-- The previous-conversation part (anthropic_helpers.py, lines 99-105):
present only when `conversation_history` is truthy. -/
def history_parts (conversation_history : Option (List Msg)) : List String :=
  if pyTruthy conversation_history then
    ["Previous conversation:\n" ++ String.join ((conversation_history.getD []).map render_msg)]
  else []

/-- The product-information part (anthropic_helpers.py, lines 107-111):
present only when `product_info` is truthy. -/
def product_info_parts (product_info : Option (List (String × String))) : List String :=
  if pyTruthy product_info then
    ["Product information:\n"
      ++ String.join ((product_info.getD []).map fun kv => "- " ++ kv.1 ++ ": " ++ kv.2 ++ "\n")]
  else []

/-- `create_customer_support_prompt` (anthropic_helpers.py, lines 70-113):
fixed leading parts, then the three optional sections, joined with a blank
line. -/
def create_customer_support_prompt (query : String)
    (customer_info : Option (List (String × String)))
    (conversation_history : Option (List Msg))
    (product_info : Option (List (String × String))) : String :=
  String.intercalate "\n\n"
    (["You are LipaChat's expert customer support AI assistant. Respond to the customer's query professionally, accurately, and helpfully.",
      "Customer query: " ++ query]
      ++ customer_info_parts customer_info
      ++ history_parts conversation_history
      ++ product_info_parts product_info)

/-! ## LipaChatCrew workflows (app/orchestration/crew.py)

Each workflow builds a fixed list of `Task` objects, runs them through a
`Crew` with `process=Process.sequential`, and maps the positional outputs of
`crew.kickoff()` into a result dict. `kickoff` is abstracted as a function
from task to output (pure runs) or to `Except` (failing runs); the
sequential process is the top-to-bottom recursion of `kickoff_sequential`. -/

/-- Values that appear in a workflow task's `context` dict: strings
(including the human-readable forward-reference placeholders), dicts, and
lists of dicts. -/
inductive CtxVal
  | str (s : String)
  | dict (d : List (String × String))
  | dictList (ds : List (List (String × String)))
deriving DecidableEq

/-- One CrewAI `Task` as constructed in crew.py: description, expected
output, owning agent (named), and context dict. -/
structure WorkflowTask where
  description : String
  expected_output : String
  agent : String
  context : List (String × CtxVal)
deriving DecidableEq

/-- Sequential execution of a task list (`Process.sequential`): tasks run
strictly top-to-bottom, outputs collected positionally. -/
def kickoff_sequential (exec : WorkflowTask → String) : List WorkflowTask → List String
  | [] => []
  | t :: ts => exec t :: kickoff_sequential exec ts

/-- Sequential execution where a task may fail: the first failure aborts the
remaining tasks and becomes the outcome of the whole kickoff. -/
def kickoff_sequential_exc (exec : WorkflowTask → Except String String) :
    List WorkflowTask → Except String (List String)
  | [] => .ok []
  | t :: ts =>
    match exec t with
    | .error e => .error e
    | .ok v =>
      match kickoff_sequential_exc exec ts with
      | .error e => .error e
      | .ok vs => .ok (v :: vs)

/-- Task 1 of `handle_customer_feedback_campaign` (crew.py, lines 75-80). -/
def analyze_feedback_task (feedback_data : List (List (String × String))) : WorkflowTask :=
  { description := "Analyze customer feedback and identify key themes and opportunities"
    expected_output := "Detailed analysis of customer feedback with key themes identified"
    agent := "customer_support"
    context := [("feedback_data", .dictList feedback_data)] }

/-- Task 2 of `handle_customer_feedback_campaign` (crew.py, lines 82-87). -/
def campaign_analysis_task (campaign_id : String) : WorkflowTask :=
  { description := "Analyze the performance of campaign " ++ campaign_id
      ++ " and identify strengths and weaknesses"
    expected_output := "Detailed campaign performance analysis"
    agent := "marketing"
    context := [("campaign_id", .str campaign_id)] }

/-- Task 3 of `handle_customer_feedback_campaign` (crew.py, lines 89-95). -/
def create_response_plan_task : WorkflowTask :=
  { description := "Create a response plan based on customer feedback analysis and campaign performance"
    expected_output := "Strategic response plan with specific actions and content recommendations"
    agent := "marketing"
    context := [("feedback_analysis", .str "Will be filled by analyze_feedback_task"),
                ("campaign_analysis", .str "Will be filled by campaign_analysis_task")] }

/-- Declared task list of the feedback-campaign workflow (crew.py,
line 100). -/
def feedback_campaign_tasks (feedback_data : List (List (String × String)))
    (campaign_id : String) : List WorkflowTask :=
  [analyze_feedback_task feedback_data, campaign_analysis_task campaign_id,
   create_response_plan_task]

/-- Result dict of `handle_customer_feedback_campaign` (crew.py,
lines 109-113). -/
structure FeedbackCampaignResult where
  feedback_analysis : String
  campaign_analysis : String
  response_plan : String
deriving DecidableEq

/-- `LipaChatCrew.handle_customer_feedback_campaign` (crew.py, lines 58-117)
with the crew kickoff abstracted: builds the three tasks, runs them
sequentially, and maps `result[0..2]` positionally into the result dict. -/
def handle_customer_feedback_campaign (exec : WorkflowTask → String)
    (feedback_data : List (List (String × String))) (campaign_id : String) :
    FeedbackCampaignResult :=
  let result := kickoff_sequential exec (feedback_campaign_tasks feedback_data campaign_id)
  { feedback_analysis := result.getD 0 ""
    campaign_analysis := result.getD 1 ""
    response_plan := result.getD 2 "" }

/-- Failure-aware `handle_customer_feedback_campaign`: the bare `except`
clause of the source logs and re-raises, so a kickoff failure propagates
unchanged and no result dict is built. -/
def handle_customer_feedback_campaign_exc (exec : WorkflowTask → Except String String)
    (feedback_data : List (List (String × String))) (campaign_id : String) :
    Except String FeedbackCampaignResult :=
  match kickoff_sequential_exc exec (feedback_campaign_tasks feedback_data campaign_id) with
  | .error e => .error e
  | .ok result =>
    .ok { feedback_analysis := result.getD 0 ""
          campaign_analysis := result.getD 1 ""
          response_plan := result.getD 2 "" }

/-- The market-research task of `create_marketing_campaign` (crew.py,
lines 139-144), declared only when `market_data` is falsy. -/
def market_research_task (campaign_brief : List (String × String))
    (target_audience : String) : WorkflowTask :=
  { description := "Conduct market research for campaign targeting " ++ target_audience
    expected_output := "Comprehensive market research report"
    agent := "marketing"
    context := [("campaign_brief", .dict campaign_brief),
                ("target_audience", .str target_audience)] }

/-- The `context_for_planning` value (crew.py, lines 147 and 150): a
placeholder string when research is pending, the supplied market data
otherwise. -/
def context_for_planning (market_data : Option (List (String × String))) :
    List (String × CtxVal) :=
  if pyTruthy market_data then [("market_research", .dict (market_data.getD []))]
  else [("market_research", .str "Will be filled by market_research_task")]

/-- The campaign-planning task (crew.py, lines 152-158); its context merges
`context_for_planning` with the brief and audience via `{**..., ...}`. -/
def campaign_planning_task (campaign_brief : List (String × String))
    (target_audience : String) (market_data : Option (List (String × String))) :
    WorkflowTask :=
  { description := "Create a strategic campaign plan based on the brief and market research"
    expected_output := "Detailed campaign plan with strategy, channels, and timeline"
    agent := "marketing"
    context := context_for_planning market_data
      ++ [("campaign_brief", .dict campaign_brief),
          ("target_audience", .str target_audience)] }

/-- The content-creation task (crew.py, lines 160-166). -/
def content_creation_task (target_audience : String) : WorkflowTask :=
  { description := "Create compelling marketing content for the campaign"
    expected_output := "Various marketing content assets for different channels"
    agent := "marketing"
    context := [("campaign_plan", .str "Will be filled by campaign_planning_task"),
                ("target_audience", .str target_audience)] }

/-- The support-preparation task (crew.py, lines 168-174). -/
def support_preparation_task (target_audience : String) : WorkflowTask :=
  { description := "Prepare customer support responses for potential campaign questions"
    expected_output := "FAQ document and support response templates"
    agent := "customer_support"
    context := [("campaign_plan", .str "Will be filled by campaign_planning_task"),
                ("target_audience", .str target_audience)] }

/-- Declared task list of `create_marketing_campaign` (crew.py, lines
138-150 and 176): the market-research task is declared first exactly when
`market_data` is falsy, then planning, content, support. -/
def create_marketing_campaign_tasks (campaign_brief : List (String × String))
    (target_audience : String) (market_data : Option (List (String × String))) :
    List WorkflowTask :=
  (if pyTruthy market_data then []
   else [market_research_task campaign_brief target_audience])
  ++ [campaign_planning_task campaign_brief target_audience market_data,
      content_creation_task target_audience,
      support_preparation_task target_audience]

/-- Response assembly of `create_marketing_campaign` (crew.py, lines
190-199): positional outputs keyed per branch, preserving dict insertion
order. -/
def marketing_campaign_response (market_data : Option (List (String × String)))
    (result : List String) : List (String × String) :=
  if !pyTruthy market_data then
    [("market_research", result.getD 0 ""),
     ("campaign_plan", result.getD 1 ""),
     ("campaign_content", result.getD 2 ""),
     ("support_materials", result.getD 3 "")]
  else
    [("campaign_plan", result.getD 0 ""),
     ("campaign_content", result.getD 1 ""),
     ("support_materials", result.getD 2 "")]

/-- `LipaChatCrew.create_marketing_campaign` (crew.py, lines 119-205) with
the crew kickoff abstracted. -/
def create_marketing_campaign (exec : WorkflowTask → String)
    (campaign_brief : List (String × String)) (target_audience : String)
    (market_data : Option (List (String × String))) : List (String × String) :=
  marketing_campaign_response market_data
    (kickoff_sequential exec
      (create_marketing_campaign_tasks campaign_brief target_audience market_data))

/-- Failure-aware `create_marketing_campaign`: a kickoff failure re-raises
and no response dict is built. -/
def create_marketing_campaign_exc (exec : WorkflowTask → Except String String)
    (campaign_brief : List (String × String)) (target_audience : String)
    (market_data : Option (List (String × String))) :
    Except String (List (String × String)) :=
  match kickoff_sequential_exc exec
      (create_marketing_campaign_tasks campaign_brief target_audience market_data) with
  | .error e => .error e
  | .ok result => .ok (marketing_campaign_response market_data result)

/-- Task 1 of `handle_customer_issue` (crew.py, lines 226-232); the context
uses `support_history or []`. -/
def troubleshoot_task (customer_id issue_description : String)
    (support_history : Option (List (List (String × String)))) : WorkflowTask :=
  { description := "Troubleshoot the customer issue: " ++ issue_description
    expected_output := "Detailed troubleshooting steps and solution"
    agent := "customer_support"
    context := [("customer_id", .str customer_id),
                ("issue_description", .str issue_description),
                ("support_history", .dictList (support_history.getD []))] }

/-- Task 2 of `handle_customer_issue` (crew.py, lines 234-239). -/
def customer_retention_task (customer_id : String) : WorkflowTask :=
  { description := "Create a customer retention plan based on the issue resolution"
    expected_output := "Customer retention strategy with specific actions"
    agent := "marketing"
    context := [("customer_id", .str customer_id),
                ("issue_resolution", .str "Will be filled by troubleshoot_task")] }

/-- Task 3 of `handle_customer_issue` (crew.py, lines 241-247). -/
def personalized_content_task (customer_id : String) : WorkflowTask :=
  { description := "Create personalized follow-up content for the customer"
    expected_output := "Personalized email and in-app message templates"
    agent := "marketing"
    context := [("customer_id", .str customer_id),
                ("issue_resolution", .str "Will be filled by troubleshoot_task"),
                ("retention_plan", .str "Will be filled by customer_retention_task")] }

/-- Declared task list of `handle_customer_issue` (crew.py, line 252). -/
def customer_issue_tasks (customer_id issue_description : String)
    (support_history : Option (List (List (String × String)))) : List WorkflowTask :=
  [troubleshoot_task customer_id issue_description support_history,
   customer_retention_task customer_id, personalized_content_task customer_id]

/-- Result dict of `handle_customer_issue` (crew.py, lines 261-265). -/
structure CustomerIssueResult where
  issue_resolution : String
  retention_plan : String
  follow_up_content : String
deriving DecidableEq

/-- Failure-aware `LipaChatCrew.handle_customer_issue` (crew.py, lines
207-269): a kickoff failure re-raises and no result dict is built. -/
def handle_customer_issue_exc (exec : WorkflowTask → Except String String)
    (customer_id issue_description : String)
    (support_history : Option (List (List (String × String)))) :
    Except String CustomerIssueResult :=
  match kickoff_sequential_exc exec
      (customer_issue_tasks customer_id issue_description support_history) with
  | .error e => .error e
  | .ok result =>
    .ok { issue_resolution := result.getD 0 ""
          retention_plan := result.getD 1 ""
          follow_up_content := result.getD 2 "" }

/-! ## KnowledgeBaseTool (app/tools/knowledge_base.py) -/

/-- One product record of the in-memory knowledge base. -/
structure ProductInfo where
  name : String
  description : String
  features : List String
  pricing : List (String × String)
  platforms : List String
deriving DecidableEq

/-- The `lipachat_messenger` product (knowledge_base.py, lines 25-41). -/
def lipachat_messenger : ProductInfo :=
  { name := "LipaChat Messenger"
    description := "Secure messaging app with integrated payment features"
    features := ["End-to-end encrypted messaging", "Voice and video calls",
                 "Mobile money integration", "Group chats up to 1000 members",
                 "File sharing up to 100MB"]
    pricing := [("basic", "Free"), ("premium", "Ksh 299/month"),
                ("business", "Ksh 999/month")]
    platforms := ["Android", "iOS", "Web"] }

/-- The `lipapay` product (knowledge_base.py, lines 42-58). -/
def lipapay : ProductInfo :=
  { name := "LipaPay"
    description := "Digital payment solution for businesses"
    features := ["Payment processing", "Invoice generation", "Transaction reports",
                 "Multi-currency support", "API integration"]
    pricing := [("starter", "1.5% per transaction"),
                ("growth", "1.2% per transaction + Ksh 1999/month"),
                ("enterprise", "Custom pricing")]
    platforms := ["Web Dashboard", "Android", "iOS", "API"] }

/-- The products category (knowledge_base.py, lines 24-59). -/
def kb_products : List (String × ProductInfo) :=
  [("lipachat_messenger", lipachat_messenger), ("lipapay", lipapay)]

/-- One FAQ entry. -/
structure Faq where
  question : String
  answer : String
deriving DecidableEq

/-- The faqs category (knowledge_base.py, lines 60-81). -/
def kb_faqs : List Faq :=
  [{ question := "How do I reset my password?"
     answer := "You can reset your password by going to the login screen and clicking on 'Forgot Password'. Enter your registered email address, and we'll send you a password reset link." },
   { question := "How do I send money through LipaChat?"
     answer := "To send money, open a chat with the recipient, tap the + icon, select 'Send Money', enter the amount, select payment method, and confirm the transaction with your PIN." },
   { question := "Is LipaChat secure?"
     answer := "Yes, LipaChat uses end-to-end encryption for all messages and calls. For payments, we use bank-grade security protocols and do not store your payment details on our servers." },
   { question := "Which payment methods are supported?"
     answer := "LipaChat supports M-Pesa, Airtel Money, T-Kash, bank transfers, and major credit/debit cards including Visa and Mastercard." },
   { question := "How do I upgrade to Premium?"
     answer := "To upgrade to Premium, go to Settings > Account > Subscription, select the Premium plan, choose your payment method, and follow the prompts to complete your purchase." }]

/-- One troubleshooting guide entry. -/
structure TroubleshootingGuide where
  issue : String
  solutions : List String
deriving DecidableEq

/-- The troubleshooting category (knowledge_base.py, lines 82-113). -/
def kb_troubleshooting : List TroubleshootingGuide :=
  [{ issue := "Unable to send messages"
     solutions := ["Check your internet connection",
                   "Ensure the app is updated to the latest version",
                   "Restart the app", "Check if the recipient has blocked you",
                   "Try logging out and logging back in"] },
   { issue := "Payment failed"
     solutions := ["Ensure you have sufficient funds",
                   "Check if your payment method is active and not expired",
                   "Verify that you entered the correct payment details",
                   "Try an alternative payment method",
                   "Wait a few minutes and try again"] },
   { issue := "App crashes on startup"
     solutions := ["Update to the latest version", "Clear the app cache",
                   "Restart your device", "Uninstall and reinstall the app",
                   "Check device storage space"] }]

/-- The top-level keys of `self.knowledge_base`, in insertion order. -/
def kb_categories : List String := ["products", "faqs", "troubleshooting"]

/-- `KnowledgeBaseTool._search_products` (knowledge_base.py, lines 165-176):
the lowercased query must occur in the name, the description, or a
feature. -/
def _search_products (query : String) : List ProductInfo :=
  (kb_products.map Prod.snd).filter fun p =>
    pyInStr query (strLower p.name) || pyInStr query (strLower p.description)
      || p.features.any fun f => pyInStr query (strLower f)

/-- `KnowledgeBaseTool._search_faqs` (knowledge_base.py, lines 178-187). -/
def _search_faqs (query : String) : List Faq :=
  kb_faqs.filter fun f =>
    pyInStr query (strLower f.question) || pyInStr query (strLower f.answer)

/-- `KnowledgeBaseTool._search_troubleshooting` (knowledge_base.py, lines
189-199). -/
def _search_troubleshooting (query : String) : List TroubleshootingGuide :=
  kb_troubleshooting.filter fun g =>
    pyInStr query (strLower g.issue)
      || g.solutions.any fun sol => pyInStr query (strLower sol)

/-- Rendering of the non-empty `results` dict. The source serialises it with
`json.dumps(results, indent=2)`; the exact JSON text is not re-modelled (no
claim constrains it), only that some results-derived string distinct from
the two fixed messages is returned. Keys appear in the search order
products, faqs, troubleshooting, each present only when its result list is
non-empty, as in the source loop. -/
def render_kb_results (ps : List ProductInfo) (fs : List Faq)
    (ts : List TroubleshootingGuide) : String :=
  "\x7b"
    ++ (if !ps.isEmpty then
          " products: " ++ String.intercalate ", " (ps.map ProductInfo.name) else "")
    ++ (if !fs.isEmpty then
          " faqs: " ++ String.intercalate ", " (fs.map Faq.question) else "")
    ++ (if !ts.isEmpty then
          " troubleshooting: " ++ String.intercalate ", " (ts.map TroubleshootingGuide.issue) else "")
    ++ " \x7d"

/-- The search-and-format tail of `_run` (knowledge_base.py, lines 138-159)
for a given list of categories to search: each searched category
contributes results only when non-empty; an empty `results` dict yields the
fixed no-match message. -/
def kb_search_categories (q : String) (categories_to_search : List String) : String :=
  let ps := if "products" ∈ categories_to_search then _search_products q else []
  let fs := if "faqs" ∈ categories_to_search then _search_faqs q else []
  let ts := if "troubleshooting" ∈ categories_to_search then _search_troubleshooting q else []
  if ps.isEmpty && fs.isEmpty && ts.isEmpty then
    "No matching information found in the knowledge base."
  else render_kb_results ps fs ts

/-- `KnowledgeBaseTool._run` (knowledge_base.py, lines 116-163). The query
is lowercased; `if category:` is Python truthiness, so `None` and the empty
string both select the all-categories search; a truthy category that is not
a knowledge-base key returns the fixed category message without searching.
The surrounding `try/except` cannot fire in this total embedding, so the
error-string branch is unreachable here. -/
def knowledge_base_run (query : String) (category : Option String) : String :=
  let q := strLower query
  match category with
  | some c =>
    if c ≠ "" then
      if c ∉ kb_categories then
        "Category '" ++ c ++ "' not found in knowledge base."
      else kb_search_categories q [c]
    else kb_search_categories q kb_categories
  | none => kb_search_categories q kb_categories

/-! ## ContentGeneratorTool._get_length_params (app/tools/content_generator.py) -/

/-- The per-length parameter record: both fields are always present. -/
structure LengthParams where
  target_words : Nat
  max_tokens : Nat
deriving DecidableEq

/-- Python `d.get(key, default)` on an insertion-ordered string-keyed dict. -/
def pyDictGet (d : List (String × α)) (k : String) (dflt : α) : α :=
  (d.lookup k).getD dflt

/-- The `social_post` table (content_generator.py, lines 98-102). -/
def social_post_params : List (String × LengthParams) :=
  [("short", ⟨30, 200⟩), ("medium", ⟨80, 400⟩), ("long", ⟨150, 600⟩)]

/-- The `email` table (content_generator.py, lines 103-107). -/
def email_params : List (String × LengthParams) :=
  [("short", ⟨100, 500⟩), ("medium", ⟨250, 1000⟩), ("long", ⟨500, 2000⟩)]

/-- The `blog_post` table (content_generator.py, lines 108-112). -/
def blog_post_params : List (String × LengthParams) :=
  [("short", ⟨300, 1500⟩), ("medium", ⟨600, 3000⟩), ("long", ⟨1200, 6000⟩)]

/-- The `ad_copy` table (content_generator.py, lines 113-117). -/
def ad_copy_params : List (String × LengthParams) :=
  [("short", ⟨25, 150⟩), ("medium", ⟨50, 250⟩), ("long", ⟨100, 500⟩)]

/-- The `params` dict of `_get_length_params` (content_generator.py, lines
97-118). -/
def length_params_table : List (String × List (String × LengthParams)) :=
  [("social_post", social_post_params), ("email", email_params),
   ("blog_post", blog_post_params), ("ad_copy", ad_copy_params)]

/-- `ContentGeneratorTool._get_length_params` (content_generator.py, lines
95-121): `params.get(content_type, params["social_post"])` then
`content_params.get(length, content_params["medium"])`. Every table of the
source contains a `"medium"` key, so the inner `⟨0, 0⟩` default of the
Lean-side `getD` is never produced. -/
def _get_length_params (content_type length : String) : LengthParams :=
  let content_params := pyDictGet length_params_table content_type social_post_params
  pyDictGet content_params length (pyDictGet content_params "medium" ⟨0, 0⟩)

/-! ## Theorems -/

/-- C1: the claim fails on the code; this theorem evaluates the two retry
wrappers at the failing inputs. A transient `ConnectionError` on the first
attempt of `generate_response` is not retried — tenacity hands the retry
callable its `RetryCallState`, not the raised exception, so the lambda's
`isinstance` test never holds — and the failure propagates after a single
attempt with no sleep. Conversely, a non-transient exception raised by the
body of `process_query` is retried to exhaustion (3 attempts, sleeping 2
then 4 time-units) instead of propagating immediately after the attempt
that raised it. -/
theorem c1_retry_classification_divergence :
    generate_response (fun n => if n = 1 then .error .connectionError else .ok "recovered")
      = { outcome := .raised .connectionError, attemptsMade := 1, sleeps := [] }
    ∧ process_query_wrapped (fun _ => (.error (.otherError "ValueError") : Except ExcClass String))
      = { outcome := .retryError (.otherError "ValueError"), attemptsMade := 3, sleeps := [2, 4] } := by
  decide

/-- C5 counterexample: when every attempt of `process_query` raises
`AnthropicError`, all 3 attempts fail and the caller receives tenacity's
`RetryError` wrapper — a wrapper exception, not the final failure itself
(`reraise` is left at its default `False`). -/
theorem c5_counterexample :
    (process_query_wrapped (fun _ => (.error .anthropicError : Except ExcClass String))).outcome
      = .retryError .anthropicError
    ∧ (RetryOutcome.retryError .anthropicError : RetryOutcome String)
      ≠ .raised .anthropicError := by
  decide

/-- C5 amended: on exhaustion `process_query` raises a `RetryError` wrapping
the final (third) attempt's failure, so the caller observes a wrapper
exception carrying — not equal to — the last failure; `generate_response`
is configured with `reraise=True`, but its retry condition never fires, so
a failing call makes exactly one attempt and propagates that first
failure's content unwrapped and unmasked. -/
theorem c5_exhaustion_propagation (attempts : Nat → Except ExcClass String)
    (e1 e2 e3 : ExcClass)
    (h1 : attempts 1 = .error e1) (h2 : attempts 2 = .error e2)
    (h3 : attempts 3 = .error e3) :
    process_query_wrapped attempts
      = { outcome := .retryError e3, attemptsMade := 3, sleeps := [2, 4] }
    ∧ generate_response attempts
      = { outcome := .raised e1, attemptsMade := 1, sleeps := [] } := by
  constructor
  · simp [process_query_wrapped, retryCall, process_query_policy, retryLoop, h1, h2, h3,
      process_query_retry_cond, isinstance_exception, wait_exponential]
  · simp [generate_response, retryCall, generate_response_policy, retryLoop, h1,
      generate_response_retry_cond, isinstance_transient]

/-- Closed instance of `c5_exhaustion_propagation` at a concrete
always-failing attempt stream. -/
theorem c5_exhaustion_propagation_witness :
    process_query_wrapped (fun _ => (.error (.otherError "boom") : Except ExcClass String))
      = { outcome := .retryError (.otherError "boom"), attemptsMade := 3, sleeps := [2, 4] }
    ∧ generate_response (fun _ => .error (.otherError "boom"))
      = { outcome := .raised (.otherError "boom"), attemptsMade := 1, sleeps := [] } :=
  c5_exhaustion_propagation (fun _ => .error (.otherError "boom"))
    (.otherError "boom") (.otherError "boom") (.otherError "boom") rfl rfl rfl

/-- C2: a requested language contained in the configured supported set
passes through unchanged — it appears in the task description and in the
result's language field — while a language outside the set is replaced by
the configured default in both places. -/
theorem c2_language_fallback (s : Settings) (agent_name query language : String)
    (kickoff : AgentTask → String) (h : Option (List Turn))
    (m : Option (List (String × String))) :
    (language ∈ s.SUPPORTED_LANGUAGES →
      (process_query_body s agent_name kickoff query h language m).language = language
      ∧ (process_query_task s query language h m).description
          = "Process the following query in " ++ language ++ ": " ++ query)
    ∧ (language ∉ s.SUPPORTED_LANGUAGES →
      (process_query_body s agent_name kickoff query h language m).language
          = s.DEFAULT_LANGUAGE
      ∧ (process_query_task s query language h m).description
          = "Process the following query in " ++ s.DEFAULT_LANGUAGE ++ ": " ++ query) := by
  constructor <;> intro hmem <;>
    simp [process_query_body, process_query_task, hmem]

/-- Closed instance of `c2_language_fallback`: "sw" is supported by the
spec-default configuration and passes through; "xx" is not and falls back
to "en". -/
theorem c2_language_fallback_witness :
    (process_query_body default_settings "support" (fun _ => "ok") "hello" none "sw" none).language
      = "sw"
    ∧ (process_query_body default_settings "support" (fun _ => "ok") "hello" none "xx" none).language
      = "en" :=
  ⟨((c2_language_fallback default_settings "support" "hello" "sw" (fun _ => "ok") none none).1
      (by decide)).1,
   ((c2_language_fallback default_settings "support" "hello" "xx" (fun _ => "ok") none none).2
      (by decide)).1⟩

/-- C3: when the conversation history is longer than the configured
retention length, the built context consists of the header, the renderings
of exactly the last `MAX_CONVERSATION_HISTORY` turns in their original
order, and the metadata block; the dropped prefix (every earlier turn)
contributes nothing. -/
theorem c3_history_trimming (s : Settings) (h : List Turn)
    (md : Option (List (String × String)))
    (hpos : 0 < s.MAX_CONVERSATION_HISTORY)
    (hlen : s.MAX_CONVERSATION_HISTORY < h.length) :
    _prepare_context s (some h) md
      = "Conversation history:\n"
        ++ String.join ((h.drop (h.length - s.MAX_CONVERSATION_HISTORY)).map renderTurn)
        ++ "\n" ++ metadata_section md
    ∧ (h.drop (h.length - s.MAX_CONVERSATION_HISTORY)).length
        = s.MAX_CONVERSATION_HISTORY
    ∧ h.take (h.length - s.MAX_CONVERSATION_HISTORY)
        ++ h.drop (h.length - s.MAX_CONVERSATION_HISTORY) = h := by
  refine ⟨?_, ?_, List.take_append_drop _ _⟩
  · have hne : h.isEmpty = false := by
      cases h with
      | nil => simp at hlen
      | cons a t => rfl
    have hnz : s.MAX_CONVERSATION_HISTORY ≠ 0 := Nat.pos_iff_ne_zero.mp hpos
    simp [_prepare_context, history_section, pyTruthy, pyLastSlice, hne, hnz]
  · rw [List.length_drop]
    omega

/-- Closed instance of `c3_history_trimming`: retention length 2 against a
3-turn history keeps exactly the last two turns in order. -/
theorem c3_history_trimming_witness :
    _prepare_context ⟨["en"], "en", 2⟩
        (some [⟨some "t1", none⟩, ⟨some "t2", none⟩, ⟨some "t3", some "a3"⟩]) none
      = "Conversation history:\n"
        ++ String.join ((([⟨some "t1", none⟩, ⟨some "t2", none⟩,
              ⟨some "t3", some "a3"⟩] : List Turn).drop 1).map renderTurn)
        ++ "\n" ++ metadata_section none := by
  have hmain := (c3_history_trimming ⟨["en"], "en", 2⟩
    [⟨some "t1", none⟩, ⟨some "t2", none⟩, ⟨some "t3", some "a3"⟩] none
    (by decide) (by decide)).1
  simpa using hmain

/-- C4 counterexample: with market data pre-supplied the marketing-campaign
workflow declares 3 tasks, and with market data absent it declares 4 —
not the 4 and 5 the claim states. -/
theorem c4_counterexample :
    (create_marketing_campaign_tasks [("objective", "growth")] "Kenyan SMEs"
        (some [("segment", "fintech")])).length = 3
    ∧ (3 : Nat) ≠ 4
    ∧ (create_marketing_campaign_tasks [("objective", "growth")] "Kenyan SMEs" none).length = 4
    ∧ (4 : Nat) ≠ 5 := by
  decide

/-- C4 amended: the ordered task list of `create_marketing_campaign`
consists of 3-4 tasks — one extra market-research task, declared first,
exactly when `market_data` is absent or empty — and the returned dict maps
its output keys to the per-task outputs positionally, one output per
declared task, in declaration order. -/
theorem c4_marketing_campaign_structure (exec : WorkflowTask → String)
    (cb : List (String × String)) (ta : String)
    (md : Option (List (String × String))) :
    (pyTruthy md = false →
      create_marketing_campaign_tasks cb ta md
        = [market_research_task cb ta, campaign_planning_task cb ta md,
           content_creation_task ta, support_preparation_task ta]
      ∧ create_marketing_campaign exec cb ta md
        = [("market_research", exec (market_research_task cb ta)),
           ("campaign_plan", exec (campaign_planning_task cb ta md)),
           ("campaign_content", exec (content_creation_task ta)),
           ("support_materials", exec (support_preparation_task ta))])
    ∧ (pyTruthy md = true →
      create_marketing_campaign_tasks cb ta md
        = [campaign_planning_task cb ta md, content_creation_task ta,
           support_preparation_task ta]
      ∧ create_marketing_campaign exec cb ta md
        = [("campaign_plan", exec (campaign_planning_task cb ta md)),
           ("campaign_content", exec (content_creation_task ta)),
           ("support_materials", exec (support_preparation_task ta))]) := by
  constructor <;> intro hmd <;>
    simp [create_marketing_campaign_tasks, create_marketing_campaign,
      marketing_campaign_response, kickoff_sequential, hmd]

/-- Closed instance of `c4_marketing_campaign_structure` with absent market
data: four outputs, keyed positionally in declaration order. -/
theorem c4_marketing_campaign_structure_witness :
    create_marketing_campaign (fun t => "out: " ++ t.description)
        [("objective", "growth")] "SMEs" none
      = [("market_research", "out: Conduct market research for campaign targeting SMEs"),
         ("campaign_plan", "out: Create a strategic campaign plan based on the brief and market research"),
         ("campaign_content", "out: Create compelling marketing content for the campaign"),
         ("support_materials", "out: Prepare customer support responses for potential campaign questions")] := by
  have hmain := ((c4_marketing_campaign_structure (fun t => "out: " ++ t.description)
      [("objective", "growth")] "SMEs" none).1 rfl).2
  rw [hmain]
  rfl

/-- C6: an empty or absent conversation history contributes no section to
the built context or customer-support prompt, and an empty or absent
metadata dict contributes no section; both-empty inputs produce the empty
context, and the concrete empty-history inputs contain no
"Conversation history:" or "Previous conversation:" header anywhere. -/
theorem c6_empty_sections_omitted (s : Settings) (query : String)
    (h : Option (List Turn)) (md : Option (List (String × String)))
    (ci pinfo : Option (List (String × String))) :
    _prepare_context s none md = metadata_section md
    ∧ _prepare_context s (some []) md = metadata_section md
    ∧ _prepare_context s h none = history_section s h
    ∧ _prepare_context s h (some []) = history_section s h
    ∧ _prepare_context s none none = ""
    ∧ create_customer_support_prompt query ci none pinfo
      = String.intercalate "\n\n"
          (["You are LipaChat's expert customer support AI assistant. Respond to the customer's query professionally, accurately, and helpfully.",
            "Customer query: " ++ query]
            ++ customer_info_parts ci ++ product_info_parts pinfo)
    ∧ create_customer_support_prompt query ci (some []) pinfo
      = String.intercalate "\n\n"
          (["You are LipaChat's expert customer support AI assistant. Respond to the customer's query professionally, accurately, and helpfully.",
            "Customer query: " ++ query]
            ++ customer_info_parts ci ++ product_info_parts pinfo)
    ∧ pyInStr "Conversation history:" (_prepare_context s none none) = false
    ∧ pyInStr "Previous conversation:"
        (create_customer_support_prompt "How do I reset my password?" none none none)
      = false := by
  refine ⟨?_, ?_, ?_, ?_, ?_, ?_, ?_, ?_, ?_⟩
  · simp [_prepare_context, history_section, pyTruthy]
  · simp [_prepare_context, history_section, pyTruthy]
  · simp [_prepare_context, metadata_section, pyTruthy]
  · simp [_prepare_context, metadata_section, pyTruthy]
  · simp [_prepare_context, history_section, metadata_section, pyTruthy]
  · simp [create_customer_support_prompt, history_parts, pyTruthy]
  · simp [create_customer_support_prompt, history_parts, pyTruthy]
  · simp [_prepare_context, history_section, metadata_section, pyTruthy]
    decide
  · decide

/-- C7: the feedback-campaign workflow runs its three tasks strictly
sequentially in declaration order, and the result fields hold the
positional outputs: `feedback_analysis` the first declared task's output
(analyze feedback), `campaign_analysis` the second's (analyze campaign),
`response_plan` the third's (create response plan). -/
theorem c7_feedback_campaign_order (exec : WorkflowTask → String)
    (fd : List (List (String × String))) (cid : String) :
    kickoff_sequential exec (feedback_campaign_tasks fd cid)
      = [exec (analyze_feedback_task fd), exec (campaign_analysis_task cid),
         exec create_response_plan_task]
    ∧ handle_customer_feedback_campaign exec fd cid
      = { feedback_analysis := exec (analyze_feedback_task fd)
          campaign_analysis := exec (campaign_analysis_task cid)
          response_plan := exec create_response_plan_task } :=
  ⟨rfl, rfl⟩

/-- Shared lemma: unfolding of one sequential kickoff step. -/
theorem kickoff_sequential_exc_cons (exec : WorkflowTask → Except String String)
    (t : WorkflowTask) (ts : List WorkflowTask) :
    kickoff_sequential_exc exec (t :: ts)
      = match exec t with
        | .error e => .error e
        | .ok v =>
          match kickoff_sequential_exc exec ts with
          | .error e => .error e
          | .ok vs => .ok (v :: vs) := rfl

/-- Shared lemma: a sequential kickoff returns outputs only when every task
in the list succeeded. -/
theorem kickoff_sequential_exc_ok (exec : WorkflowTask → Except String String) :
    ∀ ts vs, kickoff_sequential_exc exec ts = .ok vs →
      ∀ t ∈ ts, ∃ v, exec t = .ok v := by
  intro ts
  induction ts with
  | nil => simp
  | cons hd tl ih =>
    intro vs hok t hmem
    simp only [kickoff_sequential_exc] at hok
    cases hhd : exec hd with
    | error e => rw [hhd] at hok; exact absurd hok (by simp)
    | ok v =>
      rw [hhd] at hok
      cases htl : kickoff_sequential_exc exec tl with
      | error e => rw [htl] at hok; exact absurd hok (by simp)
      | ok vs2 =>
        rcases List.mem_cons.mp hmem with hEq | hMem
        · exact ⟨v, hEq ▸ hhd⟩
        · exact ih vs2 htl t hMem

/-- C8: in every workflow the first task failure aborts the remaining chain
and the invocation propagates that failure to its caller as-is: a kickoff
whose prefix succeeds and whose next task fails yields the failure no
matter what follows; each of the three workflow entry points re-raises a
kickoff failure without building a result dict; and a result dict exists
only when every declared task succeeded. -/
theorem c8_failure_aborts_chain (exec : WorkflowTask → Except String String)
    (pre post : List WorkflowTask) (t : WorkflowTask) (e : String)
    (fd : List (List (String × String))) (cid : String)
    (cb : List (String × String)) (ta : String)
    (md : Option (List (String × String)))
    (cid2 desc : String) (sh : Option (List (List (String × String))))
    (hpre : ∀ t2 ∈ pre, ∃ v, exec t2 = .ok v) (ht : exec t = .error e) :
    kickoff_sequential_exc exec (pre ++ t :: post) = .error e
    ∧ (∀ e2, kickoff_sequential_exc exec (feedback_campaign_tasks fd cid) = .error e2 →
        handle_customer_feedback_campaign_exc exec fd cid = .error e2)
    ∧ (∀ e2, kickoff_sequential_exc exec (create_marketing_campaign_tasks cb ta md) = .error e2 →
        create_marketing_campaign_exc exec cb ta md = .error e2)
    ∧ (∀ e2, kickoff_sequential_exc exec (customer_issue_tasks cid2 desc sh) = .error e2 →
        handle_customer_issue_exc exec cid2 desc sh = .error e2)
    ∧ (∀ vs, kickoff_sequential_exc exec (feedback_campaign_tasks fd cid) = .ok vs →
        ∀ t2 ∈ feedback_campaign_tasks fd cid, ∃ v, exec t2 = .ok v) := by
  refine ⟨?_, ?_, ?_, ?_, fun vs hok => kickoff_sequential_exc_ok exec _ vs hok⟩
  · induction pre with
    | nil => simp [kickoff_sequential_exc, ht]
    | cons hd tl ih =>
      obtain ⟨v, hv⟩ := hpre hd (List.mem_cons_self hd tl)
      have htl := ih fun t2 hmem => hpre t2 (List.mem_cons_of_mem hd hmem)
      rw [List.cons_append, kickoff_sequential_exc_cons, hv, htl]
  · intro e2 hk
    simp [handle_customer_feedback_campaign_exc, hk]
  · intro e2 hk
    simp [create_marketing_campaign_exc, hk]
  · intro e2 hk
    simp [handle_customer_issue_exc, hk]

/-- Closed instance of `c8_failure_aborts_chain`: an exec that fails on
every task makes the feedback-campaign kickoff and the workflow itself both
return the first failure, with no partial result. -/
theorem c8_failure_aborts_chain_witness :
    kickoff_sequential_exc (fun _ => .error "boom") (feedback_campaign_tasks [] "c1")
      = .error "boom"
    ∧ handle_customer_feedback_campaign_exc (fun _ => .error "boom") [] "c1"
      = .error "boom" := by
  have hmain := c8_failure_aborts_chain (fun _ => .error "boom") []
    [campaign_analysis_task "c1", create_response_plan_task] (analyze_feedback_task [])
    "boom" [] "c1" [] "aud" none "cust" "desc" none (by simp) rfl
  exact ⟨hmain.1, hmain.2.1 "boom" hmain.1⟩

/-- C9: `KnowledgeBaseTool._run` is total by construction (it returns a
string on every input); a truthy category that is not a knowledge-base key
yields the fixed category message for every query, without consulting the
data; and a query whose searches all come back empty yields exactly the
fixed no-match message, both for the all-categories search and for a
single searched category. -/
theorem c9_knowledge_base_messages (q1 q2 c : String)
    (hc1 : c ≠ "") (hc2 : c ∉ kb_categories)
    (hp : _search_products (strLower q2) = [])
    (hf : _search_faqs (strLower q2) = [])
    (ht : _search_troubleshooting (strLower q2) = []) :
    knowledge_base_run q1 (some c)
      = "Category '" ++ c ++ "' not found in knowledge base."
    ∧ knowledge_base_run q2 none
      = "No matching information found in the knowledge base."
    ∧ knowledge_base_run q2 (some "faqs")
      = "No matching information found in the knowledge base." := by
  refine ⟨?_, ?_, ?_⟩
  · simp [knowledge_base_run, hc1, hc2]
  · simp [knowledge_base_run, kb_search_categories, kb_categories, hp, hf, ht]
  · simp [knowledge_base_run, kb_search_categories, kb_categories, hf]

/-- Closed instance of `c9_knowledge_base_messages`: the category "manuals"
is unknown, and the query "zzqx" matches nothing in the knowledge base. -/
theorem c9_knowledge_base_messages_witness :
    knowledge_base_run "pricing" (some "manuals")
      = "Category 'manuals' not found in knowledge base."
    ∧ knowledge_base_run "zzqx" none
      = "No matching information found in the knowledge base." := by
  have hmain := c9_knowledge_base_messages "pricing" "zzqx" "manuals"
    (by decide) (by decide) (by decide) (by decide) (by decide)
  exact ⟨hmain.1, hmain.2.1⟩

/-- Shared lemma: `pyDictGet` returns either a stored value or its
default. -/
theorem pyDictGet_mem_or_default (d : List (String × α)) (k : String) (dflt : α) :
    pyDictGet d k dflt ∈ d.map Prod.snd ∨ pyDictGet d k dflt = dflt := by
  unfold pyDictGet
  induction d with
  | nil => simp [List.lookup]
  | cons hd tl ih =>
    by_cases hk : k == hd.1
    · simp [List.lookup, hk]
    · simp only [List.lookup, hk]
      rcases ih with hmem | hdflt
      · exact Or.inl (by simp [List.mem_cons]; right; simpa using hmem)
      · exact Or.inr hdflt

/-- Shared lemma: the content-type lookup of `_get_length_params` always
selects one of the four source tables. -/
theorem length_params_table_cases (content_type : String) :
    pyDictGet length_params_table content_type social_post_params ∈
      [social_post_params, email_params, blog_post_params, ad_copy_params] := by
  rcases pyDictGet_mem_or_default length_params_table content_type social_post_params with
    hmem | hdflt
  · revert hmem
    simp [length_params_table]
  · simp [hdflt]

/-- Shared lemma: every entry of the four source tables has positive word
and token counts, as does each medium entry. -/
theorem lengthParams_tables_pos :
    ∀ tbl ∈ [social_post_params, email_params, blog_post_params, ad_copy_params],
      (∀ p ∈ tbl.map Prod.snd, 0 < p.target_words ∧ 0 < p.max_tokens)
      ∧ 0 < (pyDictGet tbl "medium" ⟨0, 0⟩).target_words
      ∧ 0 < (pyDictGet tbl "medium" ⟨0, 0⟩).max_tokens := by
  decide

/-- C10: `_get_length_params` is total — on every pair of labels it returns
a record with both fields populated from the source tables (in particular
both positive) — an unrecognized content type falls back to the
`social_post` table, and an unrecognized length label falls back to the
`medium` entry of the selected table. -/
theorem c10_length_params_fallback (content_type length : String) :
    (0 < (_get_length_params content_type length).target_words
      ∧ 0 < (_get_length_params content_type length).max_tokens)
    ∧ (length_params_table.lookup content_type = none →
        _get_length_params content_type length = _get_length_params "social_post" length)
    ∧ ((pyDictGet length_params_table content_type social_post_params).lookup length = none →
        _get_length_params content_type length = _get_length_params content_type "medium") := by
  refine ⟨?_, ?_, ?_⟩
  · have hval : _get_length_params content_type length
        = pyDictGet (pyDictGet length_params_table content_type social_post_params) length
            (pyDictGet (pyDictGet length_params_table content_type social_post_params)
              "medium" ⟨0, 0⟩) := rfl
    have hpos := lengthParams_tables_pos _ (length_params_table_cases content_type)
    rw [hval]
    rcases pyDictGet_mem_or_default
        (pyDictGet length_params_table content_type social_post_params) length
        (pyDictGet (pyDictGet length_params_table content_type social_post_params)
          "medium" ⟨0, 0⟩) with hmem | hdflt
    · exact hpos.1 _ hmem
    · rw [hdflt]
      exact ⟨hpos.2.1, hpos.2.2⟩
  · intro hnone
    have h1 : pyDictGet length_params_table content_type social_post_params
        = social_post_params := by
      simp [pyDictGet, hnone]
    have h2 : pyDictGet length_params_table "social_post" social_post_params
        = social_post_params := rfl
    unfold _get_length_params
    rw [h1, h2]
  · intro hnone
    unfold _get_length_params
    simp only [pyDictGet] at hnone ⊢
    rw [hnone]
    cases hm : List.lookup "medium"
        ((List.lookup content_type length_params_table).getD social_post_params) with
    | none => simp [hm]
    | some v => simp [hm]

/-- Closed instance of `c10_length_params_fallback`: the unknown content
type "banner" with the unknown length "huge" falls back to the social_post
table and to its medium entry. -/
theorem c10_length_params_fallback_witness :
    _get_length_params "banner" "huge" = _get_length_params "social_post" "huge"
    ∧ _get_length_params "banner" "huge" = _get_length_params "banner" "medium"
    ∧ 0 < (_get_length_params "banner" "huge").target_words := by
  have hmain := c10_length_params_fallback "banner" "huge"
  exact ⟨hmain.2.1 (by decide), hmain.2.2 (by decide), hmain.1.1⟩

end LipaChat
